import Mathlib

/-!
Verification of the iRock Modbus driver (venus-os dbus-serialbattery fork).

This file shallowly embeds the versioned register-resolution and polling
engine of `src/dbus-serialbattery/bms/irock.py` (the current driver) and the
relevant parts of the legacy variant `src/etc/dbus-serialbattery/bms/irock.py`.

Modeling conventions:
* Python `None` failures and `Option`-shaped results become `Option`.
* Uncaught Python exceptions (KeyError on a dict lookup, AttributeError on
  `None.major`, ValueError from `BaseType(...)`) become the `PyResult.exn`
  constructor of an explicit result type.
* The driver reads its own register tables with *attribute* access in two
  places although the tables are plain dicts — `fielddata.array_size` at
  line 371 of `get_field` and `modbusRegisterTable.offset` / `.length` /
  `fielddata.offset` / `.array_size` at lines 398-399 of `get_cell_field` —
  so every matched, gated-in field read raises AttributeError before any
  register is read or any value stored; the embedding models these paths
  as `PyResult.exn .attributeError`.
* The transport library (minimalmodbus) is an external collaborator; its four
  read primitives are supplied by an `Env` record, each returning `Option`
  (`none` models a raised transport exception).
* Lock acquisition/release and transport accesses are recorded as an event
  trace (`Ev`), so that the locking discipline of the `with` blocks is visible.
* The registry tables embed exactly the address / array_size / type /
  hardware_support_register data the driver code reads; the purely
  informational `name`, `description` and `unit` strings are never consulted
  by the embedded operations and are omitted.
-/

/-- Semantic version triple, modeling `semantic_version.Version` as used by
the driver (`Version.coerce` results; prerelease/build tags do not occur). -/
structure SemVer where
  major : Nat
  minor : Nat
  patch : Nat
deriving DecidableEq, BEq

/-- ModBus value types; mirrors the `BaseType` enum of irock.py. -/
inductive BaseType where
  | INT8 | UINT8 | CHAR | INT16 | UINT16 | INT32 | UINT32
  | INT64 | UINT64 | FLOAT32 | FLOAT64 | BOOL
deriving DecidableEq

/-- Mirrors the Python enum constructor `BaseType(value)`: `some` on the
twelve known value strings, `none` where Python would raise `ValueError`. -/
def BaseType.ofString : String → Option BaseType
  | "int8" => some .INT8
  | "uint8" => some .UINT8
  | "char" => some .CHAR
  | "int16" => some .INT16
  | "uint16" => some .UINT16
  | "int32" => some .INT32
  | "uint32" => some .UINT32
  | "int64" => some .INT64
  | "uint64" => some .UINT64
  | "float32" => some .FLOAT32
  | "float64" => some .FLOAT64
  | "bool" => some .BOOL
  | _ => none

/-- A decoded Modbus value as produced by `get_modbus_value`.  Float payloads
are kept opaque (the word-swapped IEEE decoding is done by minimalmodbus,
outside this core), represented by the token the environment returns. -/
inductive MBValue where
  | int : Int → MBValue
  | str : String → MBValue
  | bool : Bool → MBValue
  | float : Int → MBValue
deriving DecidableEq

/-- Uncaught Python exceptions that the embedded operations can raise. -/
inductive Exc where
  | keyError
  | attributeError
  | valueError
deriving DecidableEq

/-- Result of a Python call: a value, or an uncaught exception. -/
inductive PyResult (α : Type) where
  | ok : α → PyResult α
  | exn : Exc → PyResult α
deriving DecidableEq

/-- Lock and transport events, used to check the locking discipline.
`acqPort`/`relPort` are the channel-level (`port_locks`) lock,
`acqAddr`/`relAddr` the device-level (`address_locks`) lock, and
`transport a` one register access of the transport library at address `a`. -/
inductive Ev where
  | acqPort
  | acqAddr
  | relAddr
  | relPort
  | transport : Int → Ev
deriving DecidableEq, BEq

/-- The transport boundary: the read primitives minimalmodbus provides.
`none` models a raised exception (timeout, I/O failure, malformed reply).
`reportedVersion` is the result of `Version.coerce(read_string(1, 8))` used
by `get_modbus_version` (`none` when the read or the coercion raises). -/
structure Env where
  reportedVersion : Option SemVer
  readBit : Int → Option Int
  readRegister : Int → Bool → Option Int
  readLong : Int → Bool → Nat → Option Int
  readFloat : Int → Nat → Option Int
  readString : Int → Nat → Option String

/-- One register descriptor of `IROCK_MODBUS_REGISTERS` (the fields the code
reads: `address`, `array_size`, `type`, `hardware_support_register`). -/
structure RegisterDef where
  address : Int
  array_size : Nat
  type : String
  hardware_support_register : Option Int
deriving DecidableEq

/-- One versioned register table of `IROCK_MODBUS_REGISTERS`.  The `register`
dict is modeled as an association list in Python insertion order. -/
structure RegisterTable where
  version : SemVer
  register : List (String × RegisterDef)
deriving DecidableEq

/-- One per-cell register descriptor of `IROCK_MODBUS_CELL_REGISTERS`. -/
structure CellRegisterDef where
  offset : Int
  array_size : Nat
  type : String
  hardware_support_register : Option Int
deriving DecidableEq

/-- One versioned per-cell register table of `IROCK_MODBUS_CELL_REGISTERS`:
`offset` is the cell block base address, `length` the per-cell stride. -/
structure CellRegisterTable where
  version : SemVer
  offset : Int
  length : Int
  register : List (String × CellRegisterDef)
deriving DecidableEq

/-- The `IROCK_TO_LOCAL_FIELD_NAMES` dict of irock.py, in source order. -/
def IROCK_TO_LOCAL_FIELD_NAMES : List (String × String) := [
  ("Manufacturer_ID", "manufacturer_id"),
  ("Modbus_Version", "modbus_version"),
  ("Hardware_Name", "hardware_name"),
  ("Hardware_Version", "hardware_version"),
  ("Serial_Number", "serial_number"),
  ("SW_Version", "sw_version"),
  ("Number_of_Cells", "cell_count"),
  ("Capacity", "capacity"),
  ("Battery_Voltage", "voltage"),
  ("Battery_Current", "current"),
  ("Battery_SOC", "soc"),
  ("Remaining_Capacity", "remaining_capacity"),
  ("Max_Charge_Current", "max_battery_charge_current"),
  ("Max_Discharge_Current", "max_battery_discharge_current"),
  ("Max_Cell_Voltage", "max_battery_voltage_bms"),
  ("Min_Cell_Voltage", "min_battery_voltage_bms"),
  ("Temperature_Sensor_1", "temp1"),
  ("Temperature_Sensor_2", "temp2"),
  ("Temperature_Sensor_3", "temp3"),
  ("Temperature_Sensor_4", "temp4"),
  ("MOSFET_Temperature", "temp_mos"),
  ("Feedback_Shunt_Current", "feedback_shunt_current"),
  ("Charge_FET", "charge_fet"),
  ("Discharge_FET", "discharge_fet"),
  ("Alarm", "alarm"),
  ("Warning", "warning"),
  ("Cell_Voltage", "voltage"),
  ("Cell_Balance_Status", "balance"),
  ("Production", "production"),
  ("Custom_Field", "custom_field"),
  ("SOH", "soh"),
  ("Balance_FET", "balance_fet")]

/-- `IROCK_TO_LOCAL_FIELD_NAMES[fieldname]`: `none` models the KeyError the
Python subscript raises for a key missing from the dict. -/
def lookupLocal (fieldname : String) : Option String :=
  (IROCK_TO_LOCAL_FIELD_NAMES.find? (fun p => p.1 == fieldname)).map (fun p => p.2)

/-- The version 2.0.0 table of `IROCK_MODBUS_REGISTERS`, in source order. -/
def irockRegistersV2 : RegisterTable :=
  ⟨⟨2, 0, 0⟩, [
    ("Manufacturer_ID", ⟨0, 1, "uint16", none⟩),
    ("Modbus_Version", ⟨1, 16, "char", none⟩),
    ("Hardware_Name", ⟨9, 16, "char", none⟩),
    ("Hardware_Version", ⟨17, 8, "char", none⟩),
    ("Serial_Number", ⟨21, 12, "char", none⟩),
    ("SW_Version", ⟨27, 16, "char", none⟩),
    ("Number_of_Cells", ⟨35, 1, "uint16", none⟩),
    ("Battery_Voltage", ⟨36, 1, "float32", none⟩),
    ("Battery_Current", ⟨38, 1, "float32", some 0⟩),
    ("Battery_SOC", ⟨40, 1, "float32", some 1⟩),
    ("Capacity", ⟨42, 1, "float32", none⟩),
    ("Remaining_Capacity", ⟨44, 1, "float32", some 2⟩),
    ("Max_Charge_Current", ⟨46, 1, "float32", none⟩),
    ("Max_Discharge_Current", ⟨48, 1, "float32", none⟩),
    ("Max_Cell_Voltage", ⟨50, 1, "float32", none⟩),
    ("Min_Cell_Voltage", ⟨52, 1, "float32", none⟩),
    ("Temperature_Sensor_1", ⟨54, 1, "float32", some 3⟩),
    ("Temperature_Sensor_2", ⟨56, 1, "float32", some 4⟩),
    ("Temperature_Sensor_3", ⟨58, 1, "float32", some 5⟩),
    ("Temperature_Sensor_4", ⟨60, 1, "float32", some 6⟩),
    ("MOSFET_Temperature", ⟨62, 1, "float32", some 7⟩),
    ("Feedback_Shunt_Current", ⟨64, 1, "float32", some 8⟩),
    ("Charge_FET", ⟨66, 1, "bool", none⟩),
    ("Discharge_FET", ⟨67, 1, "bool", none⟩),
    ("Low_Voltage_Alarm", ⟨68, 1, "uint8", none⟩),
    ("High_Voltage_Alarm", ⟨69, 1, "uint8", none⟩),
    ("Low_Cell_Voltage_Alarm", ⟨70, 1, "uint8", none⟩),
    ("High_Cell_Voltage_Alarm", ⟨71, 1, "uint8", none⟩),
    ("Low_SOC_Alarm", ⟨72, 1, "uint8", none⟩),
    ("High_Charge_Current_Alarm", ⟨73, 1, "uint8", none⟩),
    ("High_Discharge_Current_Alarm", ⟨74, 1, "uint8", none⟩),
    ("Temperature_Alarm", ⟨75, 1, "uint8", none⟩)]⟩

/-- The version 1.0.0 table of `IROCK_MODBUS_REGISTERS`, in source order. -/
def irockRegistersV1 : RegisterTable :=
  ⟨⟨1, 0, 0⟩, [
    ("Manufacturer_ID", ⟨0, 1, "uint16", none⟩),
    ("Modbus_Version", ⟨1, 16, "char", none⟩),
    ("Hardware_Name", ⟨9, 16, "char", none⟩),
    ("Hardware_Version", ⟨17, 8, "char", none⟩),
    ("Serial_Number", ⟨21, 12, "char", none⟩),
    ("SW_Version", ⟨27, 16, "char", none⟩),
    ("Number_of_Cells", ⟨35, 1, "uint16", none⟩),
    ("Battery_Voltage", ⟨36, 1, "float32", none⟩),
    ("Battery_Current", ⟨38, 1, "float32", none⟩),
    ("Battery_SOC", ⟨40, 1, "float32", none⟩),
    ("Capacity", ⟨42, 1, "float32", none⟩),
    ("Remaining_Capacity", ⟨44, 1, "float32", none⟩),
    ("Max_Charge_Current", ⟨46, 1, "float32", none⟩),
    ("Max_Discharge_Current", ⟨48, 1, "float32", none⟩),
    ("Max_Cell_Voltage", ⟨50, 1, "float32", none⟩),
    ("Min_Cell_Voltage", ⟨52, 1, "float32", none⟩),
    ("Temperature_Sensor_1", ⟨54, 1, "float32", none⟩),
    ("Temperature_Sensor_2", ⟨56, 1, "float32", none⟩),
    ("Temperature_Sensor_3", ⟨58, 1, "float32", none⟩),
    ("Temperature_Sensor_4", ⟨60, 1, "float32", none⟩),
    ("MOSFET_Temperature", ⟨62, 1, "float32", none⟩)]⟩

/-- `IROCK_MODBUS_REGISTERS`: version 2.0.0 table first, as in the source. -/
def IROCK_MODBUS_REGISTERS : List RegisterTable :=
  [irockRegistersV2, irockRegistersV1]

/-- `IROCK_MODBUS_CELL_REGISTERS`, version 2.0.0 entry. -/
def irockCellRegistersV2 : CellRegisterTable :=
  ⟨⟨2, 0, 0⟩, 76, 3, [
    ("Cell_Voltage", ⟨0, 1, "float32", none⟩),
    ("Cell_Balance_Status", ⟨2, 1, "bool", none⟩)]⟩

/-- `IROCK_MODBUS_CELL_REGISTERS`, version 1.0.0 entry. -/
def irockCellRegistersV1 : CellRegisterTable :=
  ⟨⟨1, 0, 0⟩, 64, 4, [
    ("Cell_Voltage", ⟨0, 1, "float32", none⟩),
    ("Cell_Balance_Status", ⟨2, 1, "bool", none⟩),
    ("res", ⟨3, 1, "uint16", none⟩)]⟩

/-- `IROCK_MODBUS_CELL_REGISTERS`: version 2.0.0 entry first, as in source. -/
def IROCK_MODBUS_CELL_REGISTERS : List CellRegisterTable :=
  [irockCellRegistersV2, irockCellRegistersV1]

/-- Trace of `get_modbus_version` (current driver): inside the try block it
acquires the port lock, the address lock, reads the version string at
register 1, and releases both locks in reverse order — identical on the
success, major-0 and exception paths, since the `with` blocks unwind. -/
def getModbusVersion (env : Env) : Option SemVer × List Ev :=
  let evs := [Ev.acqPort, Ev.acqAddr, Ev.transport 1, Ev.relAddr, Ev.relPort]
  match env.reportedVersion with
  | none => (none, evs)
  | some v => (if v.major == 0 then none else some v, evs)

/-- Value projection of `getModbusVersion`. -/
def getModbusVersionVal (env : Env) : Option SemVer :=
  (getModbusVersion env).1

/-- `get_modbus_hw_support` (current driver): under both locks, read one bit
at the capability indicator address and compare with 0; a raised read
exception is caught and reported as `False`. -/
def getModbusHwSupport (env : Env) (address : Int) : Bool × List Ev :=
  let evs := [Ev.acqPort, Ev.acqAddr, Ev.transport address, Ev.relAddr, Ev.relPort]
  match env.readBit address with
  | some r => (r != 0, evs)
  | none => (false, evs)

/-- Value projection of `getModbusHwSupport`. -/
def getModbusHwSupportVal (env : Env) (address : Int) : Bool :=
  (getModbusHwSupport env address).1

/-- The type dispatch inside `get_modbus_value`'s try block.  Each numeric
branch performs one transport access; a `none` from the environment is the
caught transport exception, turning the overall result into `None`.  Two
branches never reach the transport: for INT8/UINT8 no dispatch branch
exists, so `result` stays `None` with no register read; and the CHAR branch
passes `size/2` — float division in Python 3 — as the register count to
`read_string`, which minimalmodbus rejects as a non-int before any
transport I/O; the raised error is caught and the result is `None`. -/
def modbusDispatch (env : Env) (a : Int) (t : BaseType) (_size : Nat) :
    Option MBValue × List Ev :=
  match t with
  | .CHAR => (none, [])
  | .INT16 => ((env.readRegister a true).map .int, [Ev.transport a])
  | .UINT16 => ((env.readRegister a false).map .int, [Ev.transport a])
  | .INT32 => ((env.readLong a true 2).map .int, [Ev.transport a])
  | .UINT32 => ((env.readLong a false 2).map .int, [Ev.transport a])
  | .INT64 => ((env.readLong a true 4).map .int, [Ev.transport a])
  | .UINT64 => ((env.readLong a false 4).map .int, [Ev.transport a])
  | .FLOAT32 => ((env.readFloat a 2).map .float, [Ev.transport a])
  | .FLOAT64 => ((env.readFloat a 4).map .float, [Ev.transport a])
  | .BOOL => ((env.readRegister a false).map (fun n => .bool (n != 0)), [Ev.transport a])
  | .INT8 => (none, [])
  | .UINT8 => (none, [])

/-- `get_modbus_value` (current driver).  `BaseType(type)` runs before the
lock acquisition, so an unknown type string raises ValueError with no lock
or transport activity; otherwise both locks frame the dispatch. -/
def getModbusValue (env : Env) (address : Int) (ty : String) (size : Nat) :
    PyResult (Option MBValue) × List Ev :=
  match BaseType.ofString ty with
  | none => (.exn .valueError, [])
  | some t =>
      let d := modbusDispatch env address t size
      (.ok d.1, [Ev.acqPort, Ev.acqAddr] ++ d.2 ++ [Ev.relAddr, Ev.relPort])

/-- Value projection of `getModbusValue`. -/
def getModbusValueVal (env : Env) (address : Int) (ty : String) (size : Nat) :
    PyResult (Option MBValue) :=
  (getModbusValue env address ty size).1

/-- Attribute stores of the battery object: `attrs` are device-level
attributes (targets of `setattr(self, ...)`), `cellAttrs` the per-cell
stores.  In the current driver the field-write code (lines 372-376 and
400-404) is unreachable — lines 371 and 398 raise AttributeError first —
so the embedded operations only ever thread this state unchanged. -/
structure DevState where
  attrs : List (String × Option MBValue)
  cellAttrs : List (List (String × Option MBValue))
deriving DecidableEq

/-- The device state before any field was stored. -/
def devState0 : DevState := ⟨[], []⟩

/-- The inner loop of `get_field` over one version table's register dict:
translate each Modbus name through `IROCK_TO_LOCAL_FIELD_NAMES` (KeyError on
a missing key), and on a name match apply the capability gate.  When the
gate passes (no declared indicator, or the probe allows), line 371 evaluates
`get_modbus_value(fielddata['address'], fielddata['type'],
fielddata.array_size)`: the third argument is an *attribute* access on a
plain dict and raises AttributeError while the arguments are evaluated, so
`get_modbus_value` is never invoked, no register is read, nothing is stored,
and the success flag is never returned.  Only the denial path (`False`) and
the fall-through (`.ok none`, loop continues) complete normally. -/
def searchRegisterList (env : Env) (name : String) (andOp : Bool) (st : DevState) :
    List (String × RegisterDef) → PyResult (Option (DevState × Bool))
  | [] => .ok none
  | (fname, fd) :: rest =>
    match lookupLocal fname with
    | none => .exn .keyError
    | some orgName =>
      if orgName == name then
        match fd.hardware_support_register with
        | some r =>
          if getModbusHwSupportVal env r then .exn .attributeError
          else .ok (some (st, false))
        | none => .exn .attributeError
      else searchRegisterList env name andOp st rest

/-- The outer loop of `get_field` over `IROCK_MODBUS_REGISTERS`: only tables
whose version agrees with the negotiated version on (major, minor) are
searched; after all tables the function returns `False` ("field not found"). -/
def getFieldTables (env : Env) (v : SemVer) (name : String) (andOp : Bool)
    (st : DevState) : List RegisterTable → PyResult (DevState × Bool)
  | [] => .ok (st, false)
  | tbl :: rest =>
    if tbl.version.major == v.major && tbl.version.minor == v.minor then
      match searchRegisterList env name andOp st tbl.register with
      | .exn e => .exn e
      | .ok (some r) => .ok r
      | .ok none => getFieldTables env v name andOp st rest
    else getFieldTables env v name andOp st rest

/-- `get_field` (current driver).  When `get_modbus_version` returned `None`,
the subsequent `modbusVersion.major` attribute access raises AttributeError
before any table is consulted. -/
def getField (env : Env) (name : String) (andOp : Bool) (st : DevState) :
    PyResult (DevState × Bool) :=
  match getModbusVersionVal env with
  | none => .exn .attributeError
  | some v => getFieldTables env v name andOp st IROCK_MODBUS_REGISTERS

/-- Inner loop of `get_cell_field` over one cell table's register dict.
After a name match and a passing capability gate, line 398 computes
`adr = modbusRegisterTable.offset + (modbusRegisterTable.length * (cell - 1))
+ fielddata.offset`: its very first operand, `modbusRegisterTable.offset`,
is an *attribute* access on a plain dict and raises AttributeError, so no
absolute cell register address is ever computed, no register is read, and
no cell store is written. -/
def searchCellRegisterList (env : Env) (name : String) (cell : Int) (andOp : Bool)
    (st : DevState) :
    List (String × CellRegisterDef) → PyResult (Option (DevState × Bool))
  | [] => .ok none
  | (fname, fd) :: rest =>
    match lookupLocal fname with
    | none => .exn .keyError
    | some orgName =>
      if orgName == name then
        match fd.hardware_support_register with
        | some r =>
          if getModbusHwSupportVal env r then .exn .attributeError
          else .ok (some (st, false))
        | none => .exn .attributeError
      else searchCellRegisterList env name cell andOp st rest

/-- Outer loop of `get_cell_field` over `IROCK_MODBUS_CELL_REGISTERS`. -/
def getCellFieldTables (env : Env) (v : SemVer) (name : String) (cell : Int)
    (andOp : Bool) (st : DevState) : List CellRegisterTable → PyResult (DevState × Bool)
  | [] => .ok (st, false)
  | tbl :: rest =>
    if tbl.version.major == v.major && tbl.version.minor == v.minor then
      match searchCellRegisterList env name cell andOp st tbl.register with
      | .exn e => .exn e
      | .ok (some r) => .ok r
      | .ok none => getCellFieldTables env v name cell andOp st rest
    else getCellFieldTables env v name cell andOp st rest

/-- `get_cell_field` (current driver). -/
def getCellField (env : Env) (name : String) (cell : Int) (andOp : Bool)
    (st : DevState) : PyResult (DevState × Bool) :=
  match getModbusVersionVal env with
  | none => .exn .attributeError
  | some v => getCellFieldTables env v name cell andOp st IROCK_MODBUS_CELL_REGISTERS

/-- The mandatory fields of `read_status_data`, in call order. -/
def mandatoryStatusFields : List String :=
  ["voltage", "current", "soc", "soh", "temperature_1", "charge_fet", "discharge_fet"]

/-- The optional fields of `read_status_data`, in call order. -/
def optionalStatusFields : List String :=
  ["capacity_remain", "temperature_2", "temperature_3", "temperature_4",
   "temperature_mos", "balance_fet",
   "protection.high_voltage", "protection.high_cell_voltage",
   "protection.low_voltage", "protection.low_cell_voltage",
   "protection.low_soc", "protection.high_charge_current",
   "protection.high_discharge_current", "protection.cell_imbalance",
   "protection.internal_failure", "protection.high_charge_temperature",
   "protection.low_charge_temperature", "protection.high_temperature",
   "protection.low_temperature", "protection.high_internal_temperature",
   "protection.fuse_blown",
   "history.deepest_discharge", "history.last_discharge",
   "history.average_discharge", "history.charge_cycles",
   "history.full_discharges", "history.total_ah_drawn",
   "history.minimum_voltage", "history.maximum_voltage",
   "history.minimum_cell_voltage", "history.maximum_cell_voltage",
   "history.timestamp_last_full_charge", "history.low_voltage_alarms",
   "history.high_voltage_alarms", "history.minimum_temperature",
   "history.maximum_temperature", "history.discharged_energy",
   "history.charged_energy"]

/-- One `answer = self.get_field(name, answer)` chain: thread the state and
the accumulated flag through a list of field reads, propagating uncaught
exceptions.  `gf` abstracts `get_field` so the same translation of
`read_status_data`'s body serves the wired driver (`gf := getField env`) and
the success-oracle analysis of the aggregation semantics. -/
def runFieldsCore {σ : Type} (gf : String → Bool → σ → PyResult (σ × Bool)) :
    σ → Bool → List String → PyResult (σ × Bool)
  | st, answer, [] => .ok (st, answer)
  | st, answer, n :: rest =>
    match gf n answer st with
    | .exn e => .exn e
    | .ok (st', a') => runFieldsCore gf st' a' rest

/-- The body of `read_status_data`: run the mandatory chain starting from
`answer = True`; if the accumulated flag is `False`, log and return `False`;
otherwise run the optional chain and return `True` unconditionally. -/
def readStatusDataCore {σ : Type} (gf : String → Bool → σ → PyResult (σ × Bool))
    (st : σ) : PyResult (σ × Bool) :=
  match runFieldsCore gf st true mandatoryStatusFields with
  | .exn e => .exn e
  | .ok (st1, answer) =>
    if answer = false then .ok (st1, false)
    else
      match runFieldsCore gf st1 answer optionalStatusFields with
      | .exn e => .exn e
      | .ok (st2, _) => .ok (st2, true)

/-- `read_status_data` of the current driver, wired to the real `get_field`. -/
def readStatusData (env : Env) (st : DevState) : PyResult (DevState × Bool) :=
  readStatusDataCore (fun n a s => getField env n a s) st

/-- `get_field` abstracted as a pure per-call oracle (no state, no
exceptions), for analyzing the aggregation semantics of the pass. -/
def oracleGF (g : String → Bool → Bool) :
    String → Bool → Unit → PyResult (Unit × Bool) :=
  fun n a _ => .ok ((), g n a)

/-- `read_status_data`'s aggregation over an abstract `get_field` oracle. -/
def readStatusDataAgg (g : String → Bool → Bool) : Bool :=
  match readStatusDataCore (oracleGF g) () with
  | .ok (_, b) => b
  | .exn _ => false

/-- State of one `timed_lru_cache`-wrapped function: the lru_cache table
(association list keyed by the argument tuple; the maxsize-128 eviction
never triggers for this driver's small key sets) and the single, global
`func.expiration` timestamp.  Times are integers (e.g. milliseconds). -/
structure CacheState (α β : Type) where
  table : List (α × β)
  expiration : Int
deriving DecidableEq

/-- One call through `wrapped_func` of `timed_lru_cache`: if `now` has
reached the global expiration, clear the whole cache and start a new epoch
`now + lifetime`; then consult the lru table; on a miss run the computation
and install the result, except that a result for which `isNoneRes` holds
(Python's `result is None` test) clears the entire cache again.  The third
component reports whether the wrapped computation ran on this call. -/
def timedLruCall {α β : Type} [BEq α] (isNoneRes : β → Bool) (lifetime now : Int)
    (compute : α → β) (st : CacheState α β) (x : α) : β × CacheState α β × Bool :=
  let st1 := if st.expiration ≤ now then CacheState.mk [] (now + lifetime) else st
  match st1.table.find? (fun p => p.1 == x) with
  | some p => (p.2, st1, false)
  | none =>
    let r := compute x
    if isNoneRes r then (r, CacheState.mk [] st1.expiration, true)
    else (r, CacheState.mk (st1.table ++ [(x, r)]) st1.expiration, true)

/-- `get_modbus_version` of the legacy variant
(`src/etc/dbus-serialbattery/bms/irock.py`): a single per-address lock (the
module-level `locks` dict) guards the version-string read; there is no port
lock, no major-0 rejection, and an exception falls through to `None`. -/
def etcGetModbusVersion (env : Env) : Option SemVer × List Ev :=
  (env.reportedVersion, [Ev.acqAddr, Ev.transport 1, Ev.relAddr])

/-- The supportedness test the legacy variant applies in `test_connection`,
`get_settings`, `read_status_data` and `read_cell_data`:
`modbus_version == Version("1.0.0")` — full equality of the version triple
(and `None` compares unequal). -/
def etcVersionIs100 (v : Option SemVer) : Bool :=
  match v with
  | some w => w == SemVer.mk 1 0 0
  | none => false

/-- Cell voltage address in the legacy `read_cell_data`:
`mbdev.read_float(64 + c * 4, byteorder=3)`. -/
def etcCellVoltageAddress (c : Int) : Int := 64 + c * 4

/-- Cell balance address in the legacy `read_cell_data`:
`mbdev.read_register(66 + c * 4)`. -/
def etcCellBalanceAddress (c : Int) : Int := 66 + c * 4

/-- A device environment in which every transport read succeeds: protocol
version 2.0.0, every capability bit set, every register reads as 1, longs
and floats read as 0, strings read as "x". -/
def envOk : Env :=
  ⟨some ⟨2, 0, 0⟩, fun _ => some 1, fun _ _ => some 1, fun _ _ _ => some 0,
   fun _ _ => some 0, fun _ _ => some "x"⟩

/-- Like `envOk`, but the capability-indicator coil read returns `bit`
uniformly (used with `some 0` for "probe denies", `none` for "probe read
raises", both of which `get_modbus_hw_support` reports as `False`). -/
def envDenyBit (bit : Option Int) : Env :=
  ⟨some ⟨2, 0, 0⟩, fun _ => bit, fun _ _ => some 1, fun _ _ _ => some 0,
   fun _ _ => some 0, fun _ _ => some "x"⟩

/-- Environment whose runtime capability probe denies every indicator. -/
def envDeny : Env := envDenyBit (some 0)

/-- Environment in which every register reads as the raw value 2. -/
def envTwo : Env :=
  ⟨some ⟨2, 0, 0⟩, fun _ => some 1, fun _ _ => some 2, fun _ _ _ => some 2,
   fun _ _ => some 2, fun _ _ => some "x"⟩

/-- Environment of a device reporting protocol version 0.9.0. -/
def env09 : Env :=
  ⟨some ⟨0, 9, 0⟩, fun _ => some 1, fun _ _ => some 1, fun _ _ _ => some 0,
   fun _ _ => some 0, fun _ _ => some "x"⟩

/-- Well-locked transport frame: the port lock, then the address lock, then
only transport accesses, then the locks released in reverse order. -/
def lockedFrame (t : List Ev) : Prop :=
  ∃ mid : List Ev, (∀ e ∈ mid, ∃ x, e = Ev.transport x) ∧
    t = Ev.acqPort :: Ev.acqAddr :: (mid ++ [Ev.relAddr, Ev.relPort])

/-- Helper: a `timed_lru_cache` call on a state with an empty table always
runs the wrapped computation, whatever the clock and expiration say. -/
theorem timedLruCall_empty_runs {α β : Type} [BEq α] (isN : β → Bool)
    (lifetime now e : Int) (cmp : α → β) (x : α) :
    (timedLruCall isN lifetime now cmp ⟨[], e⟩ x).2.2 = true := by
  unfold timedLruCall
  by_cases h : e ≤ now <;> simp [h] <;> split <;> rfl

/-- C1: the claim says that for every cell field read and every cell index
i in [0, cell_count), the absolute register address computed by
`get_cell_field` equals cell_block_base + i * cell_block_stride +
offset_within_cell_block, including at i = 0 and i = cell_count - 1.  The
code never computes any absolute address at all: the first operand of line
398, `modbusRegisterTable.offset`, is an attribute access on a plain dict
and raises AttributeError, so on a fully healthy 2.0.0 device
`get_cell_field("voltage", i)` raises at both boundary indices (0, and 23
for the maximal cell_count 24) before any arithmetic or transport read.
The legacy `read_cell_data` — the claim's other cited source — does read
exactly the claimed addresses: voltage at 64 + c*4 + 0 and balance at
64 + c*4 + 2 over the 1.0.0 cell table (base 64, stride 4). -/
theorem c1_cell_address_never_computed :
    getCellField envOk "voltage" 0 true devState0 = .exn .attributeError ∧
    getCellField envOk "voltage" 23 true devState0 = .exn .attributeError ∧
    etcCellVoltageAddress 0 = 64 + 0 * 4 + 0 ∧
    etcCellVoltageAddress 23 = 64 + 23 * 4 + 0 ∧
    etcCellBalanceAddress 0 = 64 + 0 * 4 + 2 ∧
    etcCellBalanceAddress 23 = 64 + 23 * 4 + 2 :=
  ⟨rfl, rfl, by decide, by decide, by decide, by decide⟩

/-- C2: the claim says that for every field whose catalog lookup succeeds
and whose capability gate passes, `get_field` writes the decoded value into
the field's target before the success flag is returned.  In the code the
read is never reached: evaluating the arguments of `get_modbus_value` at
line 371 accesses `fielddata.array_size` on a plain dict and raises
AttributeError, so on a fully healthy 2.0.0 device `get_field("voltage")` —
and `get_field("serial_number")`, on which the driver's own
`unique_identifier` relies — raises instead of storing anything or
returning success, leaving the attribute store (empty in `devState0`)
unwritten. -/
theorem c2_gated_read_never_stores :
    getField envOk "voltage" true devState0 = .exn .attributeError ∧
    devState0.attrs = [] ∧
    getField envOk "serial_number" true devState0 = .exn .attributeError :=
  ⟨rfl, rfl, rfl⟩

/-- C3 counterexample: `Battery_Current` (logical "current") declares
capability indicator 0 in the 2.0.0 table; with the probe denying every
coil, `get_field("current")` returns `False` — a per-field failure flag,
not a soft skip — and the enclosing `read_status_data` pass does not
report success: it aborts with the AttributeError that its first gated-in
mandatory field "voltage" raises at line 371, before "current" is even
reached.  This refutes "the read is a soft skip: the enclosing
mandatory-field pass still reports success". -/
theorem c3_capability_denial_fails_pass_cex :
    (irockRegistersV2.register.find? (fun p => p.1 == "Battery_Current")).map
        (fun p => p.2.hardware_support_register) = some (some 0) ∧
    getModbusHwSupportVal envDeny 0 = false ∧
    getField envDeny "current" true devState0 = .ok (devState0, false) ∧
    readStatusData envDeny devState0 = .exn .attributeError :=
  ⟨rfl, rfl, rfl, rfl⟩

/-- C3 amended: when the runtime capability probe denies (coil reads 0) or
fails (read raises, reported as denial), `get_field` on the probed field
"current" returns `False` rather than a soft skip, and the status pass
does not report success — it raises AttributeError at its first gated-in
mandatory field before the denied field is reached. -/
theorem c3_capability_denial_returns_false (bit : Option Int)
    (h : bit = some 0 ∨ bit = none) :
    getModbusHwSupportVal (envDenyBit bit) 0 = false ∧
    getField (envDenyBit bit) "current" true devState0 = .ok (devState0, false) ∧
    readStatusData (envDenyBit bit) devState0 = .exn .attributeError := by
  rcases h with h | h <;> subst h <;> exact ⟨rfl, rfl, rfl⟩

/-- C3 witness: the amended theorem at the concrete denying probe. -/
theorem c3_capability_denial_returns_false_witness :
    getModbusHwSupportVal (envDenyBit (some 0)) 0 = false ∧
    getField (envDenyBit (some 0)) "current" true devState0 = .ok (devState0, false) ∧
    readStatusData (envDenyBit (some 0)) devState0 = .exn .attributeError :=
  c3_capability_denial_returns_false (some 0) (Or.inl rfl)

/-- C4: `read_status_data` aggregation.  With `get_field` abstracted as an
oracle satisfying its success contract (it returns the incoming accumulator
on success and `False` on failure, i.e. `g n a = a && s n` for the per-field
success flags `s`), the pass returns exactly the conjunction of the seven
mandatory flags: `False` whenever any mandatory field read fails (even if
later mandatory reads succeed) and `True` whenever all mandatory reads
succeed, independent of the optional field results. -/
theorem c4_status_pass_aggregation (g : String → Bool → Bool) (s : String → Bool)
    (h : ∀ n a, g n a = (a && s n)) :
    readStatusDataAgg g = mandatoryStatusFields.all s := by
  have key : ∀ (l : List String) (a : Bool),
      runFieldsCore (oracleGF g) () a l = .ok ((), a && l.all s) := by
    intro l
    induction l with
    | nil => intro a; simp [runFieldsCore]
    | cons n rest ih =>
      intro a
      simp only [runFieldsCore, oracleGF, ih, List.all_cons]
      rw [h n a, Bool.and_assoc]
  unfold readStatusDataAgg readStatusDataCore
  rw [key mandatoryStatusFields true]
  simp only [Bool.true_and]
  cases hall : mandatoryStatusFields.all s
  · simp
  · simp [key optionalStatusFields true]

/-- C4 witness: with every field succeeding except the mandatory "current",
the pass reports failure. -/
theorem c4_status_pass_aggregation_witness :
    readStatusDataAgg (fun n a => a && (n != "current")) =
      mandatoryStatusFields.all (fun n => n != "current") ∧
    mandatoryStatusFields.all (fun n => n != "current") = false :=
  ⟨c4_status_pass_aggregation (fun n a => a && (n != "current"))
    (fun n => n != "current") (fun _ _ => rfl), rfl⟩

/-- C5 counterexample: the legacy variant decides supportedness by
`modbus_version == Version("1.0.0")` — a device reporting 1.0.1 agrees with
the 1.0.0 catalog on (major, minor) yet is treated as unsupported, so the
patch component does affect whether the device is treated as supported. -/
theorem c5_patch_rejects_device_cex :
    etcVersionIs100 (some ⟨1, 0, 1⟩) = false ∧
    etcVersionIs100 (some ⟨1, 0, 0⟩) = true ∧
    (SemVer.mk 1 0 1).major = (SemVer.mk 1 0 0).major ∧
    (SemVer.mk 1 0 1).minor = (SemVer.mk 1 0 0).minor :=
  ⟨rfl, rfl, rfl, rfl⟩

/-- C5 amended: in the current driver's `get_field`, register-table
selection depends only on (major, minor) of the negotiated version — two
versions agreeing on major and minor resolve identically over any table
list, patch ignored. -/
theorem c5_table_selection_ignores_patch (env : Env) (name : String)
    (andOp : Bool) (st : DevState) (v v' : SemVer)
    (h1 : v.major = v'.major) (h2 : v.minor = v'.minor) :
    ∀ tables : List RegisterTable,
      getFieldTables env v name andOp st tables =
        getFieldTables env v' name andOp st tables := by
  intro tables
  induction tables with
  | nil => rfl
  | cons t rest ih =>
    simp only [getFieldTables, h1, h2]
    split
    · cases hs : searchRegisterList env name andOp st t.register with
      | exn e => rfl
      | ok o =>
        cases o with
        | none => exact ih
        | some r => rfl
    · exact ih

/-- C5 witness: versions 1.0.7 and 1.0.0 resolve identically over the
driver's register tables. -/
theorem c5_table_selection_ignores_patch_witness :
    getFieldTables envOk ⟨1, 0, 7⟩ "voltage" true devState0 IROCK_MODBUS_REGISTERS =
      getFieldTables envOk ⟨1, 0, 0⟩ "voltage" true devState0 IROCK_MODBUS_REGISTERS :=
  c5_table_selection_ignores_patch envOk "voltage" true devState0
    ⟨1, 0, 7⟩ ⟨1, 0, 0⟩ rfl rfl IROCK_MODBUS_REGISTERS

/-- C6 counterexample: for the Bool-returning cached computations
(`get_field`, `get_cell_field`, `get_modbus_hw_support`) a failure is the
value `False`, which is not Python `None`: the decorator caches it, and an
immediately following call with the same argument returns the cached
failure without re-running the computation, for the rest of the epoch. -/
theorem c6_failed_result_cached_cex :
    timedLruCall (fun _ : Bool => false) 1000 100 (fun _ : String => false)
      (CacheState.mk [] 2000) "voltage" =
      (false, CacheState.mk [("voltage", false)] 2000, true) ∧
    timedLruCall (fun _ : Bool => false) 1000 200 (fun _ : String => false)
      (CacheState.mk [("voltage", false)] 2000) "voltage" =
      (false, CacheState.mk [("voltage", false)] 2000, false) :=
  ⟨rfl, rfl⟩

/-- C6 amended: only a `None` result escapes caching (the wrapper clears the
entire cache, which also drops every other key); for a computation that
returns `None` on a cache miss, no entry remains and an immediately
following call with the same argument re-runs the computation.  This is the
behavior of `get_modbus_version`; the Bool-returning cached computations
cache their `False` failures instead. -/
theorem c6_none_result_not_cached {α γ : Type} [BEq α]
    (lifetime now now2 : Int) (cmp : α → Option γ)
    (st : CacheState α (Option γ)) (x : α)
    (hc : cmp x = none)
    (hmiss : st.table.find? (fun q => q.1 == x) = none) :
    (timedLruCall Option.isNone lifetime now cmp st x).1 = none ∧
    (timedLruCall Option.isNone lifetime now cmp st x).2.1.table = [] ∧
    (timedLruCall Option.isNone lifetime now cmp st x).2.2 = true ∧
    (timedLruCall Option.isNone lifetime now2 cmp
        (timedLruCall Option.isNone lifetime now cmp st x).2.1 x).2.2 = true := by
  have hmain : timedLruCall Option.isNone lifetime now cmp st x =
      (none, CacheState.mk []
        (if st.expiration ≤ now then now + lifetime else st.expiration), true) := by
    unfold timedLruCall
    by_cases h : st.expiration ≤ now <;> simp [h, hmiss, hc]
  refine ⟨by rw [hmain], by rw [hmain], by rw [hmain], ?_⟩
  rw [hmain]
  exact @timedLruCall_empty_runs α (Option γ) _ Option.isNone lifetime now2 _ cmp x

/-- C6 witness: a version probe that fails (returns `none`) at time 100 is
not cached, and the call at time 200 re-runs the computation. -/
theorem c6_none_result_not_cached_witness :
    (timedLruCall Option.isNone 1000 100 (fun _ : String => (none : Option Int))
      (CacheState.mk [] 2000) "modbus_version").1 = none ∧
    (timedLruCall Option.isNone 1000 100 (fun _ : String => (none : Option Int))
      (CacheState.mk [] 2000) "modbus_version").2.1.table = [] ∧
    (timedLruCall Option.isNone 1000 100 (fun _ : String => (none : Option Int))
      (CacheState.mk [] 2000) "modbus_version").2.2 = true ∧
    (timedLruCall Option.isNone 1000 200 (fun _ : String => (none : Option Int))
      (timedLruCall Option.isNone 1000 100 (fun _ : String => (none : Option Int))
        (CacheState.mk [] 2000) "modbus_version").2.1 "modbus_version").2.2 = true :=
  c6_none_result_not_cached 1000 100 200 (fun _ => none)
    (CacheState.mk [] 2000) "modbus_version" rfl rfl

/-- C7 counterexample: the decorator keeps one global expiration epoch, not
per-entry ages.  With TTL 1000 and the epoch ending at 1000, a successful
read at time 500 populates the cache, yet a second read at time 1200 — only
700 time units later, within the TTL of the first read — crosses the epoch
boundary, clears the cache and runs the computation (a new transport call)
again, refuting "a read within the TTL of a successful first read triggers
no additional transport call". -/
theorem c7_ttl_epoch_recompute_cex :
    timedLruCall (fun _ : Bool => false) 1000 500 (fun _ : String => true)
      (CacheState.mk [] 1000) "voltage" =
      (true, CacheState.mk [("voltage", true)] 1000, true) ∧
    (timedLruCall (fun _ : Bool => false) 1000 1200 (fun _ : String => true)
      (CacheState.mk [("voltage", true)] 1000) "voltage").2.2 = true ∧
    (1200 : Int) - 500 < 1000 :=
  ⟨rfl, rfl, by decide⟩

/-- C7 amended: a repeated read issued before the cache's global expiration
epoch whose key is in the table is served from the cache and runs no new
computation (hence no transport call); a read issued at or after the epoch
clears the cache and runs the wrapped computation exactly once.  The epoch
is global (reset to now + TTL when crossed), so "within the TTL of the
previous read" only guarantees a hit while the epoch also lasts. -/
theorem c7_hit_within_epoch_no_compute {α β : Type} [BEq α] (isN : β → Bool)
    (lifetime now : Int) (cmp : α → β) (st : CacheState α β) (x : α) :
    (∀ p, now < st.expiration → st.table.find? (fun q => q.1 == x) = some p →
      timedLruCall isN lifetime now cmp st x = (p.2, st, false)) ∧
    (st.expiration ≤ now → (timedLruCall isN lifetime now cmp st x).2.2 = true) := by
  constructor
  · intro p hlt hfind
    unfold timedLruCall
    have hn : ¬ st.expiration ≤ now := not_le.mpr hlt
    simp [hn, hfind]
  · intro hle
    unfold timedLruCall
    simp only [hle, if_pos]
    cases hi : isN (cmp x) <;> simp

/-- C7 witness: a cached successful read at time 500 (epoch ends at 1000)
is served from the cache; at time 1500 the epoch has passed and the
computation runs again. -/
theorem c7_hit_within_epoch_no_compute_witness :
    timedLruCall (fun _ : Bool => false) 1000 500 (fun _ : String => true)
      (CacheState.mk [("voltage", true)] 1000) "voltage" =
      (true, CacheState.mk [("voltage", true)] 1000, false) ∧
    (timedLruCall (fun _ : Bool => false) 1000 1500 (fun _ : String => true)
      (CacheState.mk [("voltage", true)] 1000) "voltage").2.2 = true :=
  ⟨(c7_hit_within_epoch_no_compute (fun _ : Bool => false) 1000 500
      (fun _ : String => true) (CacheState.mk [("voltage", true)] 1000)
      "voltage").1 ("voltage", true) (by decide) rfl,
   (c7_hit_within_epoch_no_compute (fun _ : Bool => false) 1000 1500
      (fun _ : String => true) (CacheState.mk [("voltage", true)] 1000)
      "voltage").2 (by decide)⟩

/-- C8 counterexample: a register declared `bool` whose raw value is 2
decodes to `true` under the code's `read_register(address) != 0`, while the
claim says any value other than 1 decodes to `false`. -/
theorem c8_bool_decode_two_cex :
    getModbusValueVal envTwo 66 "bool" 1 = .ok (some (.bool true)) ∧
    (2 : Int) ≠ 1 :=
  ⟨rfl, by decide⟩

/-- C8 amended: decoding a `bool` register yields `true` iff the raw
register value is nonzero (`!= 0`), not iff it equals 1. -/
theorem c8_bool_decodes_nonzero (env : Env) (a : Int) (size : Nat) (n : Int)
    (h : env.readRegister a false = some n) :
    getModbusValueVal env a "bool" size = .ok (some (.bool (n != 0))) := by
  unfold getModbusValueVal getModbusValue
  have hb : BaseType.ofString "bool" = some .BOOL := rfl
  rw [hb]
  simp [modbusDispatch, h]

/-- C8 witness: the amended decode rule at raw register value 1. -/
theorem c8_bool_decodes_nonzero_witness :
    getModbusValueVal envOk 66 "bool" 1 = .ok (some (.bool ((1 : Int) != 0))) :=
  c8_bool_decodes_nonzero envOk 66 1 1 rfl

/-- C9 counterexample: the legacy variant's `get_modbus_version` performs
its transport read holding only the per-address lock from its module-level
`locks` dict — the trace contains a transport access but no channel (port)
lock acquisition at all, refuting "every transport register access is
performed while holding both the channel-level and device-level locks". -/
theorem c9_legacy_single_lock_cex :
    (etcGetModbusVersion envOk).2.contains (Ev.transport 1) = true ∧
    (etcGetModbusVersion envOk).2.contains Ev.acqPort = false :=
  ⟨rfl, rfl⟩

/-- C9 amended: in the current driver, every transport access of
`get_modbus_version`, `get_modbus_hw_support` and `get_modbus_value` is
framed by port lock then address lock, released in reverse order, on every
path (success, caught transport exception, unsupported type); the only
`get_modbus_value` path without this frame is the unknown-type ValueError
raised before any lock or transport activity (empty trace). -/
theorem c9_current_driver_lock_frames (env : Env) (a : Int) (ty : String)
    (size : Nat) :
    lockedFrame (getModbusVersion env).2 ∧
    lockedFrame (getModbusHwSupport env a).2 ∧
    ((getModbusValue env a ty size).2 = [] ∨
      lockedFrame (getModbusValue env a ty size).2) := by
  refine ⟨?_, ?_, ?_⟩
  · cases hv : env.reportedVersion <;>
      exact ⟨[Ev.transport 1], by simp, by simp [getModbusVersion, hv]⟩
  · cases hb : env.readBit a <;>
      exact ⟨[Ev.transport a], by simp, by simp [getModbusHwSupport, hb]⟩
  · cases h : BaseType.ofString ty with
    | none => left; simp [getModbusValue, h]
    | some t =>
      right
      refine ⟨(modbusDispatch env a t size).2, ?_, ?_⟩
      · cases t <;> simp [modbusDispatch]
      · unfold getModbusValue
        rw [h]
        simp

/-- C10: a device reporting a protocol version with major component 0 makes
`get_modbus_version` return `None` — the check sits inside the version probe
itself, before any catalog entry is consulted (the function never touches
`IROCK_MODBUS_REGISTERS`) — and with the version `None`, `get_field` raises
AttributeError on `modbusVersion.major` before selecting any table, so a
0.x.x device never proceeds to field resolution. -/
theorem c10_major_zero_rejected (env : Env) (v : SemVer)
    (hrep : env.reportedVersion = some v) (hmaj : v.major = 0) :
    getModbusVersionVal env = none ∧
    ∀ (name : String) (andOp : Bool) (st : DevState),
      getField env name andOp st = .exn .attributeError := by
  have hv : getModbusVersionVal env = none := by
    unfold getModbusVersionVal getModbusVersion
    rw [hrep]
    simp [hmaj]
  refine ⟨hv, ?_⟩
  intro name andOp st
  unfold getField
  rw [hv]

/-- C10 witness: the theorem at the concrete 0.9.0 device. -/
theorem c10_major_zero_rejected_witness :
    getModbusVersionVal env09 = none ∧
    getField env09 "voltage" true devState0 = .exn .attributeError :=
  ⟨(c10_major_zero_rejected env09 ⟨0, 9, 0⟩ rfl rfl).1,
   (c10_major_zero_rejected env09 ⟨0, 9, 0⟩ rfl rfl).2 "voltage" true devState0⟩
